import Mathlib

/-!
Shallow embedding of lwe_plugin_provider_chat_together/plugin.py.

The plugin has two classes: ChatTogether (a thin client adapter that resolves
the credential at construction time) and ProviderChatTogether (which resolves
the model registry at construction time, either from host configuration or by
one HTTP GET to the model-listing endpoint). Environment, transport and host
configuration are made explicit parameters; the first component of each result
pair counts the HTTP GET requests issued by the operation (0 or 1).
-/

namespace TogetherPlugin

/-- Python-level error raised by the plugin code: KeyError from subscripting a
missing dictionary or environment key, or ValueError raised explicitly. -/
inductive PyError where
  | keyError (key : String)
  | valueError (msg : String)
deriving DecidableEq, Repr

/-- One entry of the parsed model-list response body. Each field is optional so
that a malformed entry (one lacking "id", "type" or "context_length") is
representable; subscripting a missing field raises KeyError. -/
structure ModelEntry where
  id : Option String
  type : Option String
  context_length : Option Nat
deriving DecidableEq, Repr

/-- Outcome of the single requests.get call: either a network-level fault
(a RequestException carrying a message) or a response with an HTTP status code
and a parsed JSON body, where none models a null or absent body. -/
inductive HttpResult where
  | fault (msg : String)
  | resp (status : Nat) (body : Option (List ModelEntry))
deriving DecidableEq, Repr

/-- String form of the requests HTTPError raised by response.raise_for_status
for a 4xx or 5xx status; its message names the offending status. -/
def httpErrorStr (status : Nat) : String :=
  toString status ++ " Error for url"

/-- Insertion into a Python dict built by a comprehension: an existing key is
updated in place, a new key is appended at the end. -/
def dictInsert (k : String) (v : Nat) : List (String × Nat) → List (String × Nat)
  | [] => [(k, v)]
  | (k0, v0) :: rest =>
      if k0 = k then (k0, v) :: rest else (k0, v0) :: dictInsert k v rest

/-- The dict comprehension on line 59 of plugin.py, iterating left to right
with accumulator acc: for each entry, model["type"] is evaluated first (KeyError
if missing); entries whose type is "chat" contribute model["id"] mapped to
model["context_length"] (KeyError if either is missing); other entries are
skipped without touching their remaining fields. -/
def buildRegistry (acc : List (String × Nat)) :
    List ModelEntry → Except PyError (List (String × Nat))
  | [] => .ok acc
  | e :: rest =>
    match e.type with
    | none => .error (.keyError "type")
    | some t =>
      if t = "chat" then
        match e.id with
        | none => .error (.keyError "id")
        | some i =>
          match e.context_length with
          | none => .error (.keyError "context_length")
          | some c => buildRegistry (dictInsert i c acc) rest
      else buildRegistry acc rest

/-- ProviderChatTogether.fetch_models (plugin.py lines 46-62). The environment
variable TOGETHER_API_KEY and the HTTP transport are explicit parameters. The
header construction subscripts os.environ, so an absent variable raises
KeyError before any request; requests.get is then issued exactly once. A
RequestException (network fault or raise_for_status) is caught and re-raised
as ValueError with the cause appended; a falsy body (null or the empty list)
raises ValueError "Could not retrieve models"; otherwise the comprehension
builds the registry. -/
def fetch_models (env : Option String) (transport : HttpResult) :
    Nat × Except PyError (List (String × Nat)) :=
  match env with
  | none => (0, .error (.keyError "TOGETHER_API_KEY"))
  | some _ =>
    match transport with
    | .fault msg => (1, .error (.valueError ("Could not retrieve models: " ++ msg)))
    | .resp status body =>
      if 400 ≤ status ∧ status < 600 then
        (1, .error (.valueError ("Could not retrieve models: " ++ httpErrorStr status)))
      else
        match body with
        | none => (1, .error (.valueError "Could not retrieve models"))
        | some entries =>
          if entries = [] then (1, .error (.valueError "Could not retrieve models"))
          else (1, buildRegistry [] entries)

/-- ChatTogether constructor (plugin.py lines 27-34). kwargsKey is none when
openai_api_key was not among the keyword arguments, and some v when it was
present with value v (some none for Python None). A falsy resolved key (None
or the empty string) raises ValueError "TOGETHER_API_KEY is not set"; the
constructor performs no HTTP request, so the request count is always 0. On
success it returns the credential bound into the client. -/
def chatTogether_init (kwargsKey : Option (Option String)) (env : Option String) :
    Nat × Except PyError String :=
  let key := match kwargsKey with
    | some v => v
    | none => env
  match key with
  | none => (0, .error (.valueError "TOGETHER_API_KEY is not set"))
  | some s =>
    if s = "" then (0, .error (.valueError "TOGETHER_API_KEY is not set"))
    else (0, .ok s)

/-- ProviderChatTogether constructor (plugin.py lines 42-44): the models field
is set to the host configuration value under plugins.provider_chat_together.models
when that value is truthy, and to the result of fetch_models otherwise; the
Python or-expression falls through both when the key is absent and when its
value is an empty mapping. -/
def provider_init (configModels : Option (List (String × Nat))) (env : Option String)
    (transport : HttpResult) : Nat × Except PyError (List (String × Nat)) :=
  match configModels with
  | none => fetch_models env transport
  | some m => if m = [] then fetch_models env transport else (0, .ok m)

/-- An entry with all three fields present. -/
abbrev WellFormed (e : ModelEntry) : Prop :=
  e.id.isSome ∧ e.type.isSome ∧ e.context_length.isSome

/-- Identifiers of the chat-typed entries of a response body, in order. -/
def chatIds (l : List ModelEntry) : List String :=
  (l.filter (fun e => e.type == some "chat")).map (fun e => e.id.getD "")

/-- The association list the comprehension produces on a well-formed body with
distinct chat identifiers: each chat entry contributes its id paired with its
context_length. -/
def chatPairs (l : List ModelEntry) : List (String × Nat) :=
  (l.filter (fun e => e.type == some "chat")).map
    (fun e => (e.id.getD "", e.context_length.getD 0))

/-- Modelled from the spec: Provider.available_models is inherited from the
lwe host framework (lwe.core.provider), which is not part of this repository;
spec section 4.2 states the model-name options are sourced dynamically from
the current Model Registry keys. -/
def available_models (models : List (String × Nat)) : List String :=
  models.map Prod.fst

/-- A value of the customization schema: a constrained preset value, the
unsupported marker (Python None), a raw dict marker, or a nested mapping. -/
inductive SchemaValue where
  | preset (vtype : String) (options : List String) (min_value max_value : Option ℚ)
      (include_none : Bool) (privateOpt : Bool)
  | unsupported
  | rawDict
  | nested (m : List (String × SchemaValue))

/-- ProviderChatTogether.customization_config (plugin.py lines 82-107),
verbatim: each PresetValue is embedded with its type name, options, numeric
bounds and flags; tools and tool_choice map to the unsupported marker;
logit_bias and response_format are raw dict markers; model_kwargs is nested. -/
def customization_config (models : List (String × Nat)) : List (String × SchemaValue) :=
  [ ("verbose", .preset "bool" [] none none false false),
    ("model_name", .preset "str" (available_models models) none none false false),
    ("temperature", .preset "float" [] (some 0) (some 2) false false),
    ("openai_api_base", .preset "str" [] none none true false),
    ("openai_api_key", .preset "str" [] none none true true),
    ("openai_organization", .preset "str" [] none none true true),
    ("request_timeout", .preset "int" [] none none false false),
    ("max_retries", .preset "int" [] (some 1) (some 10) false false),
    ("n", .preset "int" [] (some 1) (some 10) false false),
    ("max_tokens", .preset "int" [] none none true false),
    ("tools", .unsupported),
    ("tool_choice", .unsupported),
    ("model_kwargs", .nested
      [ ("top_p", .preset "float" [] (some 0) (some 1) false false),
        ("presence_penalty", .preset "float" [] (some (-2)) (some 2) false false),
        ("frequency_penalty", .preset "float" [] (some (-2)) (some 2) false false),
        ("logit_bias", .rawDict),
        ("logprobs", .preset "bool" [] none none true false),
        ("top_logprobs", .preset "int" [] (some 0) (some 20) true false),
        ("response_format", .rawDict),
        ("stop", .preset "str" [] none none true false),
        ("user", .preset "str" [] none none false false) ]) ]

/-- The option list of a schema entry, when it is a preset value. -/
def schemaOptions : Option SchemaValue → Option (List String)
  | some (.preset _ opts _ _ _ _) => some opts
  | _ => none

/-! ### Helper lemmas about the comprehension -/

theorem dictInsert_of_not_mem_keys (k : String) (v : Nat) :
    ∀ l : List (String × Nat), k ∉ l.map Prod.fst → dictInsert k v l = l ++ [(k, v)] := by
  intro l
  induction l with
  | nil => intro _; rfl
  | cons p rest ih =>
    intro h
    simp only [List.map_cons, List.mem_cons] at h
    push_neg at h
    obtain ⟨h1, h2⟩ := h
    simp only [dictInsert]
    rw [if_neg (fun hc => h1 hc.symm), ih h2]
    simp

theorem chatPairs_cons_chat (e : ModelEntry) (rest : List ModelEntry) (i : String)
    (c : Nat) (hi : e.id = some i) (ht : e.type = some "chat")
    (hc : e.context_length = some c) :
    chatPairs (e :: rest) = (i, c) :: chatPairs rest := by
  simp [chatPairs, List.filter_cons, ht, hi, hc]

theorem chatPairs_cons_nonchat (e : ModelEntry) (rest : List ModelEntry)
    (ht : e.type ≠ some "chat") :
    chatPairs (e :: rest) = chatPairs rest := by
  simp [chatPairs, List.filter_cons, ht]

theorem chatIds_cons_chat (e : ModelEntry) (rest : List ModelEntry) (i : String)
    (hi : e.id = some i) (ht : e.type = some "chat") :
    chatIds (e :: rest) = i :: chatIds rest := by
  simp [chatIds, List.filter_cons, ht, hi]

theorem chatIds_cons_nonchat (e : ModelEntry) (rest : List ModelEntry)
    (ht : e.type ≠ some "chat") :
    chatIds (e :: rest) = chatIds rest := by
  simp [chatIds, List.filter_cons, ht]

theorem buildRegistry_wf :
    ∀ (l : List ModelEntry) (acc : List (String × Nat)),
      (∀ e ∈ l, WellFormed e) → (chatIds l).Nodup →
      (∀ k ∈ acc.map Prod.fst, k ∉ chatIds l) →
      buildRegistry acc l = .ok (acc ++ chatPairs l) := by
  intro l
  induction l with
  | nil => intro acc _ _ _; simp [buildRegistry, chatPairs]
  | cons e rest ih =>
    intro acc hwf hnd hdisj
    obtain ⟨hid, hty, hcl⟩ := hwf e (by simp)
    obtain ⟨t, ht⟩ := Option.isSome_iff_exists.mp hty
    by_cases hchat : t = "chat"
    · subst hchat
      obtain ⟨i, hi⟩ := Option.isSome_iff_exists.mp hid
      obtain ⟨c, hc⟩ := Option.isSome_iff_exists.mp hcl
      rw [chatIds_cons_chat e rest i hi ht] at hnd hdisj
      have hiacc : i ∉ acc.map Prod.fst := fun hmem => hdisj i hmem (by simp)
      have hirest : i ∉ chatIds rest := by
        simpa using hnd.not_mem
      simp only [buildRegistry, ht, hi, hc, if_pos rfl]
      rw [dictInsert_of_not_mem_keys i c acc hiacc]
      rw [ih (acc ++ [(i, c)]) (fun x hx => hwf x (by simp [hx])) hnd.of_cons ?_]
      · rw [chatPairs_cons_chat e rest i c hi ht hc]
        simp
      · intro k hk
        simp only [List.map_append, List.mem_append] at hk
        rcases hk with hk | hk
        · exact fun hc2 => hdisj k hk (by simp [hc2])
        · simp only [List.map_cons, List.map_nil, List.mem_singleton] at hk
          subst hk
          exact hirest
    · have htne : e.type ≠ some "chat" := by
        rw [ht]; exact fun hc2 => hchat (by injection hc2)
      rw [chatIds_cons_nonchat e rest htne] at hnd hdisj
      simp only [buildRegistry, ht, if_neg hchat]
      rw [ih acc (fun x hx => hwf x (by simp [hx])) hnd hdisj]
      rw [chatPairs_cons_nonchat e rest htne]

theorem buildRegistry_nonchat :
    ∀ (l : List ModelEntry) (acc : List (String × Nat)),
      (∀ e ∈ l, e.type.isSome ∧ e.type ≠ some "chat") →
      buildRegistry acc l = .ok acc := by
  intro l
  induction l with
  | nil => intro acc _; rfl
  | cons e rest ih =>
    intro acc h
    obtain ⟨hty, hne⟩ := h e (by simp)
    obtain ⟨t, ht⟩ := Option.isSome_iff_exists.mp hty
    have hchat : t ≠ "chat" := by
      intro hc; exact hne (by rw [ht, hc])
    simp only [buildRegistry, ht, if_neg hchat]
    exact ih acc (fun x hx => h x (by simp [hx]))

theorem buildRegistry_append_wf :
    ∀ (pre : List ModelEntry) (acc : List (String × Nat)) (l : List ModelEntry),
      (∀ x ∈ pre, WellFormed x) →
      ∃ acc2, buildRegistry acc (pre ++ l) = buildRegistry acc2 l := by
  intro pre
  induction pre with
  | nil => intro acc l _; exact ⟨acc, rfl⟩
  | cons e rest ih =>
    intro acc l hwf
    obtain ⟨hid, hty, hcl⟩ := hwf e (by simp)
    obtain ⟨t, ht⟩ := Option.isSome_iff_exists.mp hty
    by_cases hchat : t = "chat"
    · subst hchat
      obtain ⟨i, hi⟩ := Option.isSome_iff_exists.mp hid
      obtain ⟨c, hc⟩ := Option.isSome_iff_exists.mp hcl
      simp only [List.cons_append, buildRegistry, ht, hi, hc, if_pos rfl]
      exact ih (dictInsert i c acc) l (fun x hx => hwf x (by simp [hx]))
    · simp only [List.cons_append, buildRegistry, ht, if_neg hchat]
      exact ih acc l (fun x hx => hwf x (by simp [hx]))

theorem mem_chatPairs (entries : List ModelEntry)
    (hwf : ∀ e ∈ entries, WellFormed e) (i : String) (c : Nat) :
    (i, c) ∈ chatPairs entries ↔
      ∃ e ∈ entries, e.type = some "chat" ∧ e.id = some i ∧
        e.context_length = some c := by
  simp only [chatPairs, List.mem_map, List.mem_filter, beq_iff_eq]
  constructor
  · rintro ⟨e, ⟨he, hty⟩, hpair⟩
    obtain ⟨hid, _, hcl⟩ := hwf e he
    obtain ⟨i0, hi0⟩ := Option.isSome_iff_exists.mp hid
    obtain ⟨c0, hc0⟩ := Option.isSome_iff_exists.mp hcl
    rw [hi0, hc0] at hpair
    simp only [Option.getD_some, Prod.mk.injEq] at hpair
    exact ⟨e, he, hty, by rw [hi0, hpair.1], by rw [hc0, hpair.2]⟩
  · rintro ⟨e, he, hty, hid, hcl⟩
    exact ⟨e, ⟨he, hty⟩, by rw [hid, hcl]; simp⟩

/-! ### Claim theorems -/

/-- C1: for every well-formed model-list response obtained during discovery,
the resulting registry contains exactly the response entries whose type field
equals "chat", keyed by their id, and each max_tokens value equals that entry
context_length; entries of any other type are excluded. -/
theorem fetch_ok_registry_exact (key : String) (status : Nat)
    (entries : List ModelEntry) (hst : status < 400) (hne : entries ≠ [])
    (hwf : ∀ e ∈ entries, WellFormed e) (hnd : (chatIds entries).Nodup) :
    ∃ reg, fetch_models (some key) (.resp status (some entries)) = (1, .ok reg) ∧
      ∀ i c, ((i, c) ∈ reg ↔
        ∃ e ∈ entries, e.type = some "chat" ∧ e.id = some i ∧
          e.context_length = some c) := by
  refine ⟨chatPairs entries, ?_, fun i c => mem_chatPairs entries hwf i c⟩
  simp only [fetch_models]
  rw [if_neg (by omega), if_neg hne,
    buildRegistry_wf entries [] hwf hnd (by simp)]
  simp

/-- Sample response body: one chat model and one embedding model. -/
def sampleEntries : List ModelEntry :=
  [⟨some "m1", some "chat", some 4096⟩, ⟨some "e1", some "embedding", some 512⟩]

/-- Witness for C1 at a concrete two-entry response. -/
theorem fetch_ok_registry_exact_witness :
    ∃ reg, fetch_models (some "k") (.resp 200 (some sampleEntries)) = (1, .ok reg) ∧
      ∀ i c, ((i, c) ∈ reg ↔
        ∃ e ∈ sampleEntries, e.type = some "chat" ∧ e.id = some i ∧
          e.context_length = some c) :=
  fetch_ok_registry_exact "k" 200 sampleEntries (by decide) (by decide)
    (by decide) (by decide)

/-- C2 counterexample: a present-but-empty model list is rejected by the falsy
check on line 57 of plugin.py, so discovery raises ValueError instead of
succeeding with an empty registry. -/
theorem fetch_empty_list_rejected :
    fetch_models (some "k") (.resp 200 (some [])) =
      (1, .error (.valueError "Could not retrieve models")) := by
  rfl

/-- C2 amended: a non-empty model-list response with zero chat-type entries
succeeds with an empty registry; a present-but-empty list is treated like a
missing body and is an error. -/
theorem fetch_no_chat_entries_empty_registry (key : String) (status : Nat)
    (entries : List ModelEntry) (hst : status < 400) (hne : entries ≠ [])
    (hty : ∀ e ∈ entries, e.type.isSome ∧ e.type ≠ some "chat") :
    fetch_models (some key) (.resp status (some entries)) = (1, .ok []) := by
  simp only [fetch_models]
  rw [if_neg (by omega), if_neg hne, buildRegistry_nonchat entries [] hty]

/-- Witness for the amended C2 at a one-entry non-chat response. -/
theorem fetch_no_chat_entries_empty_registry_witness :
    fetch_models (some "k")
      (.resp 200 (some [⟨some "e1", some "embedding", some 512⟩])) = (1, .ok []) :=
  fetch_no_chat_entries_empty_registry "k" 200
    [⟨some "e1", some "embedding", some 512⟩] (by decide) (by decide) (by decide)

/-- C3: when the response body is null or absent, or an empty list, provider
initialization fails with a discovery ValueError instead of producing a
registry. -/
theorem provider_missing_or_empty_body_fails (key : String) (status : Nat)
    (body : Option (List ModelEntry)) (h : body = none ∨ body = some []) :
    ∃ m, (provider_init none (some key) (.resp status body)).2 =
      .error (.valueError m) := by
  rcases h with h | h <;> subst h <;> simp only [provider_init, fetch_models] <;>
    by_cases hs : 400 ≤ status ∧ status < 600
  · rw [if_pos hs]; exact ⟨_, rfl⟩
  · rw [if_neg hs]; exact ⟨_, rfl⟩
  · rw [if_pos hs]; exact ⟨_, rfl⟩
  · rw [if_neg hs]; exact ⟨"Could not retrieve models", by simp⟩

/-- Witness for C3 at a null body with success status. -/
theorem provider_missing_or_empty_body_fails_witness :
    ∃ m, (provider_init none (some "k") (.resp 200 none)).2 =
      .error (.valueError m) :=
  provider_missing_or_empty_body_fails "k" 200 none (Or.inl rfl)

/-- With the environment variable present, fetch_models always issues exactly
one GET, whatever the transport outcome. -/
theorem fetch_models_calls_one (key : String) (t : HttpResult) :
    (fetch_models (some key) t).1 = 1 := by
  cases t with
  | fault msg => rfl
  | resp status body =>
    simp only [fetch_models]
    split
    · rfl
    · split
      · rfl
      · split <;> rfl

/-- Reduction of fetch_models on a success status and non-empty body. -/
theorem fetch_models_ok_body (key : String) (entries : List ModelEntry)
    (hne : entries ≠ []) :
    fetch_models (some key) (.resp 200 (some entries)) =
      (1, buildRegistry [] entries) := by
  simp only [fetch_models]
  rw [if_neg (by omega), if_neg hne]

/-- C4 counterexample: a pre-supplied registry that is present but empty is
falsy, so the or-expression on line 44 of plugin.py still invokes discovery:
one GET is issued and the fetched registry replaces the supplied one. -/
theorem provider_present_empty_registry_still_fetches :
    (provider_init (some []) (some "k") (.resp 200 (some sampleEntries))).1 = 1 ∧
    (provider_init (some []) (some "k") (.resp 200 (some sampleEntries))).2 =
      .ok [("m1", 4096)] := by
  constructor <;> rfl

/-- C4 amended: a present and non-empty pre-supplied registry is used as-is
with no GET issued; when the key is absent or its value is empty (falsy),
discovery runs, issuing exactly one GET when the credential environment
variable is present and none when it is absent (the environment lookup fails
first). -/
theorem provider_init_registry_amended :
    (∀ (m : List (String × Nat)) (env : Option String) (t : HttpResult),
        m ≠ [] → provider_init (some m) env t = (0, .ok m)) ∧
    (∀ (key : String) (t : HttpResult), (provider_init none (some key) t).1 = 1) ∧
    (∀ (key : String) (t : HttpResult),
        (provider_init (some []) (some key) t).1 = 1) ∧
    (∀ t : HttpResult, (provider_init none none t).1 = 0) := by
  refine ⟨?_, ?_, ?_, fun t => rfl⟩
  · intro m env t hm
    simp [provider_init, hm]
  · intro key t
    exact fetch_models_calls_one key t
  · intro key t
    show (fetch_models (some key) t).1 = 1
    exact fetch_models_calls_one key t

/-- Witness for the amended C4: a non-empty supplied registry is returned
unchanged with zero GETs even when the transport would fault. -/
theorem provider_init_registry_amended_witness :
    provider_init (some [("m", 8)]) none (.fault "boom") = (0, .ok [("m", 8)]) :=
  provider_init_registry_amended.1 [("m", 8)] none (.fault "boom") (by decide)

/-- C5: with no openai_api_key keyword and the environment variable absent or
empty, client construction fails with ValueError "TOGETHER_API_KEY is not set"
and performs no HTTP request. -/
theorem chatTogether_missing_credential_fails (env : Option String)
    (h : env = none ∨ env = some "") :
    chatTogether_init none env =
      (0, .error (.valueError "TOGETHER_API_KEY is not set")) := by
  rcases h with h | h <;> subst h <;> rfl

/-- Witness for C5 with the environment variable absent. -/
theorem chatTogether_missing_credential_fails_witness :
    chatTogether_init none none =
      (0, .error (.valueError "TOGETHER_API_KEY is not set")) :=
  chatTogether_missing_credential_fails none (Or.inl rfl)

/-- C6: on a network-level fault or a 4xx/5xx status, discovery fails with a
ValueError whose message ends with the underlying cause (the RequestException
text or the HTTPError text naming the status). -/
theorem fetch_error_includes_cause :
    (∀ key msg : String,
        ∃ m, (fetch_models (some key) (.fault msg)).2 = .error (.valueError m) ∧
          ∃ p, m = p ++ msg) ∧
    (∀ (key : String) (status : Nat) (body : Option (List ModelEntry)),
        400 ≤ status → status < 600 →
        ∃ m, (fetch_models (some key) (.resp status body)).2 =
          .error (.valueError m) ∧ ∃ p, m = p ++ httpErrorStr status) := by
  constructor
  · intro key msg
    exact ⟨_, rfl, "Could not retrieve models: ", rfl⟩
  · intro key status body h1 h2
    simp only [fetch_models]
    rw [if_pos ⟨h1, h2⟩]
    exact ⟨_, rfl, "Could not retrieve models: ", rfl⟩

/-- Witness for C6 at a 404 response. -/
theorem fetch_error_includes_cause_witness :
    ∃ m, (fetch_models (some "k") (.resp 404 none)).2 = .error (.valueError m) ∧
      ∃ p, m = p ++ httpErrorStr 404 :=
  fetch_error_includes_cause.2 "k" 404 none (by decide) (by decide)

/-- C7 counterexample: a malformed entry of non-chat type lacking its
context_length field is skipped by the comprehension filter without the
missing field ever being subscripted, so discovery succeeds with an empty
registry instead of failing with an error. -/
theorem fetch_malformed_nonchat_entry_succeeds :
    fetch_models (some "k")
      (.resp 200 (some [⟨some "e1", some "embedding", none⟩])) = (1, .ok []) := by
  rfl

/-- C7 amended: when the first malformed entry of an otherwise well-formed
response lacks the type field, or is chat-typed and lacks the id or
context_length field, discovery fails with a KeyError naming the missing
field; a non-chat entry lacking id or context_length is skipped without
error. -/
theorem fetch_malformed_entry_keyerror (key : String) (pre post : List ModelEntry)
    (e : ModelEntry) (hwf : ∀ x ∈ pre, WellFormed x) :
    (e.type = none →
      (fetch_models (some key) (.resp 200 (some (pre ++ e :: post)))).2 =
        .error (.keyError "type")) ∧
    (e.type = some "chat" → e.id = none →
      (fetch_models (some key) (.resp 200 (some (pre ++ e :: post)))).2 =
        .error (.keyError "id")) ∧
    (e.type = some "chat" → e.id.isSome → e.context_length = none →
      (fetch_models (some key) (.resp 200 (some (pre ++ e :: post)))).2 =
        .error (.keyError "context_length")) := by
  have hne : pre ++ e :: post ≠ [] := by simp
  obtain ⟨acc2, hacc⟩ := buildRegistry_append_wf pre [] (e :: post) hwf
  refine ⟨?_, ?_, ?_⟩
  · intro ht
    rw [fetch_models_ok_body key _ hne]
    show buildRegistry [] (pre ++ e :: post) = _
    rw [hacc]
    simp [buildRegistry, ht]
  · intro ht hid
    rw [fetch_models_ok_body key _ hne]
    show buildRegistry [] (pre ++ e :: post) = _
    rw [hacc]
    simp [buildRegistry, ht, hid]
  · intro ht hid hcl
    obtain ⟨i, hi⟩ := Option.isSome_iff_exists.mp hid
    rw [fetch_models_ok_body key _ hne]
    show buildRegistry [] (pre ++ e :: post) = _
    rw [hacc]
    simp [buildRegistry, ht, hi, hcl]

/-- Witness for C7: the second entry lacks its type field. -/
theorem fetch_malformed_entry_keyerror_witness :
    (fetch_models (some "k")
      (.resp 200 (some [⟨some "m1", some "chat", some 4096⟩,
        ⟨some "x", none, some 1⟩]))).2 = .error (.keyError "type") :=
  (fetch_malformed_entry_keyerror "k" [⟨some "m1", some "chat", some 4096⟩] []
    ⟨some "x", none, some 1⟩ (by decide)).1 rfl

/-- C8: for every state of the model registry, the model_name entry of the
customization schema is a preset value whose option list is exactly the
registry key list. -/
theorem customization_model_name_options (models : List (String × Nat)) :
    schemaOptions ((customization_config models).lookup "model_name") =
      some (models.map Prod.fst) := by
  rfl

/-- C9 counterexample: with TOGETHER_API_KEY present but equal to the empty
string, fetch_models builds the Bearer header from the empty credential and
still issues the GET, so an empty-string credential does reach a network
request. -/
theorem fetch_empty_env_credential_reaches_network :
    (fetch_models (some "") (.resp 200 (some sampleEntries))).1 = 1 := by
  rfl

/-- C9 amended: client construction guarantees a non-empty credential (every
successful construction binds a non-empty key, and it makes no request when it
fails); model discovery only guarantees the environment variable is present:
no GET is issued when it is absent, but the GET is issued whenever it is
present, including when its value is the empty string. -/
theorem credential_checks_amended :
    (∀ (kw : Option (Option String)) (env : Option String) (n : Nat) (k : String),
        chatTogether_init kw env = (n, .ok k) → k ≠ "") ∧
    (∀ t : HttpResult, (fetch_models none t).1 = 0) ∧
    (∀ (s : String) (t : HttpResult), (fetch_models (some s) t).1 = 1) := by
  refine ⟨?_, fun t => rfl, fun s t => fetch_models_calls_one s t⟩
  intro kw env n k h hk
  subst hk
  rcases kw with _ | v
  · rcases env with _ | s
    · simp [chatTogether_init] at h
    · by_cases hs : s = ""
      · rw [hs] at h; simp [chatTogether_init] at h
      · simp [chatTogether_init, hs] at h
  · rcases v with _ | s
    · simp [chatTogether_init] at h
    · by_cases hs : s = ""
      · rw [hs] at h; simp [chatTogether_init] at h
      · simp [chatTogether_init, hs] at h

/-- Witness for the amended C9: the credential bound by a successful concrete
construction is non-empty. -/
theorem credential_checks_amended_witness : ("key" : String) ≠ "" :=
  credential_checks_amended.1 (some (some "key")) none 0 "key" rfl

/-- C10: an explicitly supplied openai_api_key keyword that is None or the
empty string makes construction fail with the configuration error, with no
fallback to the environment variable, whatever its value. -/
theorem chatTogether_explicit_empty_credential_fails (env v : Option String)
    (h : v = none ∨ v = some "") :
    chatTogether_init (some v) env =
      (0, .error (.valueError "TOGETHER_API_KEY is not set")) := by
  rcases h with h | h <;> subst h <;> rfl

/-- Witness for C10: an explicit empty-string keyword fails even though the
environment variable holds a valid credential. -/
theorem chatTogether_explicit_empty_credential_fails_witness :
    chatTogether_init (some (some "")) (some "valid-key") =
      (0, .error (.valueError "TOGETHER_API_KEY is not set")) :=
  chatTogether_explicit_empty_credential_fails (some "valid-key") (some "")
    (Or.inr rfl)

end TogetherPlugin
